import Mathlib

/-!
Shallow embedding of `src/githubRepoFetcher.py` (class `GitHubRepoFetcher`).

The script talks to a JSON REST API over HTTP, renders results to a terminal
and optionally writes a JSON snapshot to disk.  The embedding models:

* Python/JSON values as the inductive `PyVal` (JSON objects keep key order,
  as Python dicts do);
* one HTTP exchange as `Except String HttpResponse`: `.error` is a transport
  failure raised by `requests.get` as a `RequestException`, `.ok` is a
  response carrying a status code, the parsed JSON body, and whether the
  response's `links` mapping contains a `next` entry;
* Python exceptions that escape a function as the `PyErr` error component of
  `Except PyErr α`; exceptions the source catches (`RequestException`,
  `ValueError` in the selection loop) never surface as `.error`;
* standard input as a list of lines; exhausting it corresponds to `input()`
  raising `EOFError`.

Printing to the terminal is modelled only where a claim is about the rendered
text (`display_repos`); elsewhere `print` calls are effect-free and dropped.
-/

namespace GithubRepoFetcher

/-- The Python/JSON values the script manipulates.  JSON objects are
association lists in key order (Python dicts preserve insertion order). -/
inductive PyVal where
  | none
  | bool (b : Bool)
  | int (n : Int)
  | str (s : String)
  | list (xs : List PyVal)
  | dict (kvs : List (String × PyVal))
deriving Repr

/-- Python truthiness (`if not x`): `None`, `False`, `0`, `""`, `[]`, `{}`
are falsy, everything else is truthy. -/
def pyTruthy : PyVal → Bool
  | .none => false
  | .bool b => b
  | .int n => n != 0
  | .str s => s != ""
  | .list xs => !xs.isEmpty
  | .dict kvs => !kvs.isEmpty

/-- Python `repr` for the value shapes above (string escaping inside quotes
is not reproduced; no claim renders a string that needs escaping). -/
def pyRepr : PyVal → String
  | .none => "None"
  | .bool true => "True"
  | .bool false => "False"
  | .int n => toString n
  | .str s => "'" ++ s ++ "'"
  | .list xs =>
      "[" ++ String.intercalate ", " (xs.attach.map (fun x => pyRepr x.1)) ++ "]"
  | .dict kvs =>
      "\x7b" ++ String.intercalate ", "
          (kvs.attach.map (fun kv => "'" ++ kv.1.1 ++ "': " ++ pyRepr kv.1.2))
        ++ "\x7d"
decreasing_by
  · cases x with
    | mk a ha => simpa using Nat.lt_of_lt_of_le (by simpa using List.sizeOf_lt_of_mem ha) (by simp)
  · cases kv with
    | mk a ha =>
      have h1 := List.sizeOf_lt_of_mem ha
      obtain ⟨k, v⟩ := a
      simp only [Prod.mk.sizeOf_spec, PyVal.dict.sizeOf_spec] at h1 ⊢
      omega

/-- Python `str` as used in f-string interpolation: strings verbatim,
everything else via `repr`. -/
def pyStr : PyVal → String
  | .str s => s
  | v => pyRepr v

/-- Python `d.get(k, default)` on a dict: the stored value when the key is
present (even when that value is `None`), otherwise the default. -/
def pyGetD (kvs : List (String × PyVal)) (k : String) (d : PyVal) : PyVal :=
  (kvs.lookup k).getD d

/-- Reading field `k` of a parsed JSON object (`None` when absent or when the
value is not an object); used to state what re-parsing an exported snapshot
reconstructs. -/
def pyField (v : PyVal) (k : String) : PyVal :=
  match v with
  | .dict kvs => pyGetD kvs k .none
  | _ => .none

/-- The characters `str.strip()` removes (ASCII whitespace; the script never
feeds it other Unicode whitespace). -/
def pyIsSpace (c : Char) : Bool :=
  c == ' ' || c == '\t' || c == '\n' || c == '\r' || c == '\x0b' || c == '\x0c'

/-- Python `str.strip()`: drop leading and trailing whitespace. -/
def pyStrip (s : String) : String :=
  String.mk (((s.data.dropWhile pyIsSpace).reverse.dropWhile pyIsSpace).reverse)

/-- Python `str.lower()` (the inputs compared are ASCII). -/
def pyLower (s : String) : String := String.mk (s.data.map Char.toLower)

/-- Numeric value of a digit string. -/
def digitsVal (ds : List Char) : Nat :=
  ds.foldl (fun a c => a * 10 + (c.toNat - '0'.toNat)) 0

/-- Python `int(s)` as `Option`: optional sign followed by at least one
decimal digit succeeds, anything else raises `ValueError` (modelled as
`none`).  `int` also strips surrounding whitespace; underscore digit
grouping, which no claim exercises, is not modelled. -/
def pyToInt? (s : String) : Option Int :=
  match (pyStrip s).data with
  | [] => Option.none
  | '+' :: ds =>
      if ds ≠ [] ∧ ds.all Char.isDigit then some (digitsVal ds) else Option.none
  | '-' :: ds =>
      if ds ≠ [] ∧ ds.all Char.isDigit then some (-(digitsVal ds : Int)) else Option.none
  | ds =>
      if ds.all Char.isDigit then some (digitsVal ds) else Option.none

/-- One HTTP response as the script observes it: status code, parsed JSON
body (`response.json()`), and whether `response.links` has a `'next'` key. -/
structure HttpResponse where
  status : Nat
  body : PyVal
  hasNext : Bool
deriving Repr

/-- Outcome of one `requests.get`: `.error` is a transport-level
`RequestException` (connection error, timeout, ...), `.ok` a received
response. -/
abbrev ReqOutcome := Except String HttpResponse

/-- Model of `response.raise_for_status()`: it raises `HTTPError` (a `RequestException`)
exactly for 4xx/5xx status codes. -/
def raisesForStatus (r : HttpResponse) : Bool := 400 ≤ r.status

/-- A Python exception escaping a modelled function. -/
inductive PyErr where
  | attributeError (msg : String)
  | typeError (msg : String)
  | keyError (k : String)
  | eofError
  | nonTermination
deriving Repr, DecidableEq

/-- Model of `search_users` (source lines 23-37), as a function of the outcome of its
single request.  The `try` block catches only `RequestException`; a 2xx/3xx
response whose JSON body is not an object makes `data.get` raise an uncaught
`AttributeError`. -/
def search_users (resp : ReqOutcome) : Except PyErr PyVal :=
  match resp with
  | .error _ => .ok (.list [])
  | .ok r =>
      if raisesForStatus r then .ok (.list [])
      else
        match r.body with
        | .dict kvs => .ok (pyGetD kvs "items" (.list []))
        | _ => .error (.attributeError "get")

/-- Model of `get_repo_languages` (source lines 73-86), as a function of the outcome
of its single request: on success the keys of the returned mapping with the
byte counts discarded (`list(languages_data.keys())`), on a caught
`RequestException` (transport failure or 4xx/5xx) the empty list; a 2xx/3xx
body that is not an object makes `.keys()` raise an uncaught
`AttributeError`. -/
def get_repo_languages (resp : ReqOutcome) : Except PyErr (List String) :=
  match resp with
  | .error _ => .ok []
  | .ok r =>
      if raisesForStatus r then .ok []
      else
        match r.body with
        | .dict kvs => .ok (kvs.map Prod.fst)
        | _ => .error (.attributeError "keys")

/-- Python `repos.extend(page_repos)`: extending by a list appends its elements,
by a string its characters, by a dict its keys; anything else raises
`TypeError`. -/
def pyExtend (acc : List PyVal) (v : PyVal) : Except PyErr (List PyVal) :=
  match v with
  | .list xs => .ok (acc ++ xs)
  | .str s => .ok (acc ++ s.data.map (fun c => .str (String.mk [c])))
  | .dict kvs => .ok (acc ++ kvs.map (fun kv => .str kv.1))
  | _ => .error (.typeError "not iterable")

/-- The `while True` loop of `get_user_repos` (source lines 48-69).
`pages` gives the outcome of requesting each page number; `fuel` bounds the
number of iterations (the source loop has no bound; a run that would iterate
past the fuel is reported as `.error .nonTermination`, which no theorem
below ever accepts as a result).  Per iteration, in source order: a caught
`RequestException` (transport failure or `raise_for_status`) breaks and the
accumulator is returned; an empty (falsy) page breaks; the page is appended;
a response without a `next` link breaks; otherwise the page number is
incremented (the `time.sleep(0.1)` is effect-free here) and the loop
repeats. -/
def get_user_repos_loop (pages : Nat → ReqOutcome) :
    Nat → Nat → List PyVal → Except PyErr (List PyVal)
  | 0, _, _ => .error .nonTermination
  | fuel + 1, page, repos =>
      match pages page with
      | .error _ => .ok repos
      | .ok r =>
          if raisesForStatus r then .ok repos
          else if pyTruthy r.body = false then .ok repos
          else
            match pyExtend repos r.body with
            | .error e => .error e
            | .ok repos2 =>
                if r.hasNext = false then .ok repos2
                else get_user_repos_loop pages fuel (page + 1) repos2

/-- Model of `get_user_repos` (source lines 39-71): run the pagination loop starting
at page 1 with an empty accumulator. -/
def get_user_repos (pages : Nat → ReqOutcome) (fuel : Nat) :
    Except PyErr (List PyVal) :=
  get_user_repos_loop pages fuel 1 []

/-- Python subscription `u[k]` with a string key: the stored value on a dict
that has the key, `KeyError` on a dict that lacks it, `TypeError` on
anything that is not a dict. -/
def pySubscript (u : PyVal) (k : String) : Except PyErr PyVal :=
  match u with
  | .dict kvs =>
      match kvs.lookup k with
      | some v => .ok v
      | Option.none => .error (.keyError k)
  | _ => .error (.typeError "subscript")

/-- Python slicing `v[:80]`, for the bio excerpt printed at source line 101:
the first eighty characters of a string, the first eighty elements of a
list, `TypeError` on anything unsubscriptable (an int, a bool, `None`, a
dict). -/
def pySliceEighty (v : PyVal) : Except PyErr PyVal :=
  match v with
  | .str s => .ok (.str (s.take 80))
  | .list xs => .ok (.list (xs.take 80))
  | _ => .error (.typeError "unsubscriptable")

/-- The exception, if any, that printing one entry of the search-result list
raises, in source order: line 99 does `user['login']` unguarded, and when
`user.get('bio')` is truthy line 101 slices `user['bio'][:80]`, a
`TypeError` for a truthy bio that is neither a string nor a list (the
remaining `.get(..., default)` calls on lines 99 and 102 cannot raise). -/
def render_user_err (u : PyVal) : Option PyErr :=
  match pySubscript u "login" with
  | .error e => some e
  | .ok _ =>
      match u with
      | .dict kvs =>
          if pyTruthy (pyGetD kvs "bio" .none) then
            match pySliceEighty (pyGetD kvs "bio" .none) with
            | .error e => some e
            | .ok _ => Option.none
          else Option.none
      | _ => Option.none

/-- The `while True` prompt loop of `display_user_selection` (source lines
105-117), consuming one line of standard input per iteration.  The stripped
line is compared case-insensitively against `q` (quit, returns no
selection); otherwise `int(choice)` is attempted — a `ValueError` is caught
and the loop reprompts, as it does for an out-of-range number; an in-range
number returns `users[choice_num - 1]['login']`.  Exhausted input is
`input()` raising an uncaught `EOFError`. -/
def selection_loop (users : List PyVal) : List String → Except PyErr (Option PyVal)
  | [] => .error .eofError
  | line :: rest =>
      let choice := pyStrip line
      if pyLower choice = "q" then .ok Option.none
      else
        match pyToInt? choice with
        | Option.none => selection_loop users rest
        | some n =>
            if 1 ≤ n ∧ n ≤ (users.length : Int) then
              match pySubscript (users.getD (n - 1).toNat .none) "login" with
              | .ok v => .ok (some v)
              | .error e => .error e
            else selection_loop users rest

/-- Model of `display_user_selection` (source lines 88-117): an empty user list
reports "No users found!" and yields no selection; otherwise the results are
printed — which itself raises at the first record without a `login` or with
a truthy unsliceable `bio` — and the prompt loop runs. -/
def display_user_selection (users : List PyVal) (inputs : List String) :
    Except PyErr (Option PyVal) :=
  if users.isEmpty then .ok Option.none
  else
    match users.findSome? render_user_err with
    | some e => .error e
    | Option.none => selection_loop users inputs

/-- Python slicing `v[:10]`: the first ten characters of a string, the first
ten elements of a list, `TypeError` on anything unsubscriptable (in
particular `None`). -/
def pySliceTen (v : PyVal) : Except PyErr PyVal :=
  match v with
  | .str s => .ok (.str (s.take 10))
  | .list xs => .ok (.list (xs.take 10))
  | _ => .error (.typeError "unsubscriptable")

/-- The interpolated field texts `display_repos` prints for one repository
(source lines 131-153), in print order. -/
structure RenderedRepo where
  name : String
  description : String
  stars : String
  forks : String
  updated : String
  url : String
  technologies : String
  primaryLanguage : Option String
  issues : Option String
  license : Option String
deriving Repr, DecidableEq

/-- One iteration of the display loop of `display_repos` (source lines
130-155), as the texts interpolated into each printed line.  `langResp`
gives the outcome of the language request issued for a repository name
(line 139 calls `get_repo_languages` synchronously).  Failure points, in
source order: `repo['name']` (line 131), the `[:10]` slice of the
updated-at value (line 135), `.keys()` inside the language fetch on a
non-object 2xx body, and `repo['license'].get` on a truthy non-dict license
(line 153).  The `.get(..., default)` defaults apply only when the key is
absent, not when it is present with value `None`. -/
def display_repo (langResp : String → ReqOutcome) (repo : PyVal) :
    Except PyErr RenderedRepo :=
  match repo with
  | .dict kvs => do
      let nameVal ← pySubscript repo "name"
      let descr := pyStr (pyGetD kvs "description" (.str "No description"))
      let stars := pyStr (pyGetD kvs "stargazers_count" (.int 0))
      let forks := pyStr (pyGetD kvs "forks_count" (.int 0))
      let updatedVal ← pySliceTen (pyGetD kvs "updated_at" (.str "N/A"))
      let url := pyStr (pyGetD kvs "html_url" (.str "N/A"))
      let langs ← get_repo_languages (langResp (pyStr nameVal))
      let tech := if langs.isEmpty then "Not available"
                  else String.intercalate ", " langs
      let primary := if pyTruthy (pyGetD kvs "language" .none) then
                       some (pyStr (pyGetD kvs "language" .none))
                     else Option.none
      let issues := if pyTruthy (pyGetD kvs "has_issues" .none) then
                      some (pyStr (pyGetD kvs "open_issues_count" (.int 0)))
                    else Option.none
      let license ←
        if pyTruthy (pyGetD kvs "license" .none) then
          match pyGetD kvs "license" .none with
          | .dict lkvs => .ok (some (pyStr (pyGetD lkvs "name" (.str "N/A"))))
          | _ => (.error (.attributeError "get") : Except PyErr (Option String))
        else .ok Option.none
      .ok ⟨pyStr nameVal, descr, stars, forks, pyStr updatedVal, url,
           tech, primary, issues, license⟩
  | _ => .error (.attributeError "get")

/-- Model of `display_repos` (source lines 119-155): an empty list prints a notice
and renders nothing; otherwise each repository is rendered in order. -/
def display_repos (langResp : String → ReqOutcome) (repos : List PyVal) :
    Except PyErr (List RenderedRepo) :=
  if repos.isEmpty then .ok []
  else repos.mapM (display_repo langResp)

/-- The `license` field written by `export_to_json` (source line 183):
`repo.get("license", {}).get("name") if repo.get("license") else None`.
A truthy license value that is not a dict makes `.get` raise an uncaught
`AttributeError`. -/
def export_license_field (kvs : List (String × PyVal)) : Except PyErr PyVal :=
  if pyTruthy (pyGetD kvs "license" .none) then
    match pyGetD kvs "license" .none with
    | .dict lkvs => .ok (pyGetD lkvs "name" .none)
    | _ => .error (.attributeError "get")
  else .ok .none

/-- The dict literal of one entry of the `repositories` array built by
`export_to_json` (source lines 172-184), given the already-fetched language
list and the already-evaluated license expression. -/
def mkExportEntry (kvs : List (String × PyVal)) (langs : List String)
    (lic : PyVal) : PyVal :=
  .dict
    [("name", pyGetD kvs "name" .none),
     ("description", pyGetD kvs "description" .none),
     ("url", pyGetD kvs "html_url" .none),
     ("stars", pyGetD kvs "stargazers_count" .none),
     ("forks", pyGetD kvs "forks_count" .none),
     ("updated_at", pyGetD kvs "updated_at" .none),
     ("primary_language", pyGetD kvs "language" .none),
     ("languages", .list (langs.map PyVal.str)),
     ("has_issues", pyGetD kvs "has_issues" .none),
     ("open_issues", pyGetD kvs "open_issues_count" .none),
     ("license", lic)]

/-- One entry of the `repositories` array built by `export_to_json` (source
lines 171-185).  Field values are evaluated in dict-literal order; the
unguarded `repo["name"]` at line 180 (feeding the per-repository language
re-fetch) raises `KeyError` when the key is absent, and a non-dict repo
record makes the very first `repo.get` raise `AttributeError`. -/
def export_repo_entry (langResp : String → ReqOutcome) (repo : PyVal) :
    Except PyErr PyVal :=
  match repo with
  | .dict kvs => do
      let nameVal ← pySubscript repo "name"
      let langs ← get_repo_languages (langResp (pyStr nameVal))
      let lic ← export_license_field kvs
      .ok (mkExportEntry kvs langs lic)
  | _ => .error (.attributeError "get")

/-- The default export path (source line 162). -/
def export_default_filename (username : String) : String :=
  username ++ "_repositories.json"

/-- Model of `export_to_json` (source lines 157-192), as the path and the JSON
document the function serializes with `json.dump` (2-space indent, UTF-8,
`ensure_ascii=False`); `json.dump` followed by `json.load` is the identity
on JSON values, so the document below is also what re-parsing the written
file reconstructs.  `filename` is the optional argument (Python `None`
becomes `Option.none`); `if not filename` also replaces an empty string by
the default path.  `now` is the `time.strftime` timestamp.  The final file
write is guarded by its own `try/except`, so any exception escaping this
function is one raised while building the document, before anything is
written. -/
def export_to_json (langResp : String → ReqOutcome) (repos : List PyVal)
    (username : String) (filename : Option String) (now : String) :
    Except PyErr (String × PyVal) := do
  let fname := match filename with
    | Option.none => export_default_filename username
    | some s => if s = "" then export_default_filename username else s
  let entries ← repos.mapM (export_repo_entry langResp)
  .ok (fname, .dict
    [("username", .str username),
     ("fetched_at", .str now),
     ("total_repositories", .int (repos.length : Int)),
     ("repositories", .list entries)])

/-- The query-validation stage of `search_and_display` (source lines
221-224): the raw input line is stripped; a falsy (empty) result prints
"Please enter a search query." and returns before `search_users` is called,
so no HTTP request is issued and no results are produced; otherwise the
stripped query proceeds to the search step. -/
def search_and_display_query (raw : String) : Option String :=
  let q := pyStrip raw
  if q = "" then Option.none else some q

/-- The `repositories` array of a parsed export snapshot. -/
def snapshotRepos (doc : PyVal) : List PyVal :=
  match pyField doc "repositories" with
  | .list xs => xs
  | _ => []

/-- The license name string recorded in an in-memory repository record:
the `name` field of its `license` object when that object is present and
truthy, `None` otherwise. -/
def memLicenseName (repo : PyVal) : PyVal :=
  match repo with
  | .dict kvs =>
      if pyTruthy (pyGetD kvs "license" .none) then
        match pyGetD kvs "license" .none with
        | .dict lkvs => pyGetD lkvs "name" .none
        | _ => .none
      else .none
  | _ => .none

/-- A repository record that `export_repo_entry` serializes without raising:
a dict with a `name` key whose language request resolves (to anything the
catch-all of `get_repo_languages` turns into a list) and whose `license`
field, when truthy, is a dict. -/
def exportReady (langResp : String → ReqOutcome) (repo : PyVal) : Prop :=
  ∃ kvs nv langs lic, repo = .dict kvs ∧ kvs.lookup "name" = some nv ∧
    get_repo_languages (langResp (pyStr nv)) = .ok langs ∧
    export_license_field kvs = .ok lic

/-- An input line that makes the selection loop reprompt: after stripping it
is not a quit signal and either fails `int()` parsing (`ValueError`, caught)
or parses to an out-of-range number. -/
def selection_reprompt_input (users : List PyVal) (s : String) : Prop :=
  (pyLower (pyStrip s) ≠ "q" ∧ pyToInt? (pyStrip s) = Option.none) ∨
  (∃ n : Int, pyLower (pyStrip s) ≠ "q" ∧ pyToInt? (pyStrip s) = some n ∧
    (n < 1 ∨ (users.length : Int) < n))

/-- The top-level field names of an export snapshot, in write order. -/
def exportTopKeys : List String :=
  ["username", "fetched_at", "total_repositories", "repositories"]

/-- The field names of each exported repository object, in write order. -/
def exportRepoKeys : List String :=
  ["name", "description", "url", "stars", "forks", "updated_at",
   "primary_language", "languages", "has_issues", "open_issues", "license"]

/-- Because `pyRepr` is defined by well-founded recursion, its scalar equations
are restated for rewriting. -/
lemma pyRepr_none : pyRepr PyVal.none = "None" := by simp [pyRepr]

lemma pyRepr_int (n : Int) : pyRepr (.int n) = toString n := by simp [pyRepr]

lemma pyStr_none : pyStr PyVal.none = "None" := by simp [pyStr, pyRepr]

lemma pyStr_int (n : Int) : pyStr (.int n) = toString n := by simp [pyStr, pyRepr]

lemma pyStr_str (s : String) : pyStr (.str s) = s := rfl

lemma take_na : ("N/A" : String).take 10 = "N/A" := by decide

lemma toString_zero : toString (0 : Int) = "0" := rfl

/-- C7: for every query string consisting only of whitespace (including the
empty string), the query-validation stage of `search_and_display` rejects
the input, so no HTTP request is issued, a user-facing message is printed,
and no results are produced. -/
theorem whitespace_query_no_request (raw : String)
    (h : ∀ c ∈ raw.data, pyIsSpace c = true) :
    search_and_display_query raw = Option.none := by
  have hd : raw.data.dropWhile pyIsSpace = [] := List.dropWhile_eq_nil_iff.mpr h
  have hstrip : pyStrip raw = "" := by
    unfold pyStrip
    rw [hd]
    rfl
  simp [search_and_display_query, hstrip]

/-- Witness for `whitespace_query_no_request` at the concrete input
consisting of a space, a tab and a newline. -/
theorem whitespace_query_no_request_witness :
    search_and_display_query " \t\n" = Option.none :=
  whitespace_query_no_request " \t\n" (by decide)

/-- C10: a 2xx/3xx search response whose JSON object body lacks an `items`
key makes `search_users` return the empty list (the `.get` default), the
same value a legitimately empty search produces. -/
theorem search_users_missing_items_empty (st : Nat)
    (kvs : List (String × PyVal)) (nx : Bool) (hst : st < 400)
    (hitems : kvs.lookup "items" = Option.none) :
    search_users (.ok ⟨st, .dict kvs, nx⟩) = .ok (.list []) := by
  have hs : raisesForStatus ⟨st, .dict kvs, nx⟩ = false := by
    simp only [raisesForStatus, decide_eq_false_iff_not]
    omega
  simp [search_users, hs, pyGetD, hitems]

/-- Witness for `search_users_missing_items_empty`: a 200 response with
body `{"total_count": 0}`. -/
theorem search_users_missing_items_empty_witness :
    search_users (.ok ⟨200, .dict [("total_count", .int 0)], false⟩) =
      .ok (.list []) :=
  search_users_missing_items_empty 200 [("total_count", .int 0)] false
    (by decide) rfl

/-- C9, counterexample: a 2xx search response whose (well-formed JSON) body
is an array instead of an object makes `data.get` raise an `AttributeError`
that no handler catches — `search_users` propagates an unhandled exception,
so the programme is not crash-free for every remote-call outcome. -/
theorem search_users_uncaught_attribute_error :
    search_users (.ok ⟨200, .list [], false⟩) =
      .error (.attributeError "get") := rfl

/-- C9, amended: transport failures and non-2xx statuses (the
`RequestException` family the source catches) are always downgraded to an
empty or partial result by every remote-calling operation — `search_users`
and `get_repo_languages` return empty results and the pagination loop of
`get_user_repos` returns what it has accumulated; only a 2xx response whose
JSON body does not have the expected shape can escape as an exception. -/
theorem remote_failures_downgraded :
    (∀ e, search_users (.error e) = .ok (.list [])) ∧
    (∀ r, 400 ≤ r.status → search_users (.ok r) = .ok (.list [])) ∧
    (∀ e, get_repo_languages (.error e) = .ok []) ∧
    (∀ r, 400 ≤ r.status → get_repo_languages (.ok r) = .ok []) ∧
    (∀ (pages : Nat → ReqOutcome) fuel page acc e, pages page = .error e →
        get_user_repos_loop pages (fuel + 1) page acc = .ok acc) ∧
    (∀ (pages : Nat → ReqOutcome) fuel page acc r, pages page = .ok r →
        400 ≤ r.status →
        get_user_repos_loop pages (fuel + 1) page acc = .ok acc) := by
  refine ⟨fun e => rfl, fun r h => ?_, fun e => rfl, fun r h => ?_,
    fun pages fuel page acc e h => ?_, fun pages fuel page acc r h h4 => ?_⟩
  · have hs : raisesForStatus r = true := by
      simp only [raisesForStatus, decide_eq_true_eq]; omega
    simp [search_users, hs]
  · have hs : raisesForStatus r = true := by
      simp only [raisesForStatus, decide_eq_true_eq]; omega
    simp [get_repo_languages, hs]
  · simp [get_user_repos_loop, h]
  · have hs : raisesForStatus r = true := by
      simp only [raisesForStatus, decide_eq_true_eq]; omega
    simp [get_user_repos_loop, h, hs]

/-- Witness for `remote_failures_downgraded` at concrete failures: a
connection error and a 404 response, against each operation. -/
theorem remote_failures_downgraded_witness :
    search_users (.error "conn") = .ok (.list []) ∧
    search_users (.ok ⟨404, .dict [], false⟩) = .ok (.list []) ∧
    get_repo_languages (.error "conn") = .ok [] ∧
    get_repo_languages (.ok ⟨404, .dict [], false⟩) = .ok [] ∧
    get_user_repos_loop (fun _ => .error "conn") 1 1 [.str "a"] =
      .ok [.str "a"] ∧
    get_user_repos_loop (fun _ => .ok ⟨500, .list [], false⟩) 1 1 [.str "a"] =
      .ok [.str "a"] :=
  ⟨remote_failures_downgraded.1 "conn",
   remote_failures_downgraded.2.1 ⟨404, .dict [], false⟩ (by decide),
   remote_failures_downgraded.2.2.1 "conn",
   remote_failures_downgraded.2.2.2.1 ⟨404, .dict [], false⟩ (by decide),
   remote_failures_downgraded.2.2.2.2.1 _ 0 1 [.str "a"] "conn" rfl,
   remote_failures_downgraded.2.2.2.2.2 _ 0 1 [.str "a"] ⟨500, .list [], false⟩
     rfl (by decide)⟩

/-- C8, counterexample: a repository whose `description` field is present
with an explicit JSON `null` is rendered as Python's `None`, not as the
`"No description"` default — `dict.get(key, default)` substitutes the
default only when the key is absent. -/
theorem display_null_description_not_defaulted :
    display_repo (fun _ => .error "down")
        (.dict [("name", .str "x"), ("description", PyVal.none)]) =
      .ok ⟨"x", "None", "0", "0", "N/A", "N/A", "Not available",
           Option.none, Option.none, Option.none⟩ ∧
    "None" ≠ "No description" ∧
    display_repo (fun _ => .error "down")
        (.dict [("name", .str "x"), ("updated_at", PyVal.none)]) =
      .error (.typeError "unsubscriptable") :=
  ⟨by simp [display_repo, pySubscript, pyGetD, get_repo_languages, pySliceTen,
      pyTruthy, pyStr_none, pyStr_int, take_na, pyStr, List.lookup, Option.getD,
      bind, Except.bind, pyRepr_none, pyRepr_int, toString_zero],
   by decide, rfl⟩

/-- C8, amended: the graceful defaults apply to fields that are absent from
the repository record: then the description renders as `"No description"`,
the updated timestamp and URL as `"N/A"`, and the star, fork and open-issue
counts as `0`.  A field supplied with an explicit null is instead rendered
as the raw `None` (and a null updated timestamp raises a `TypeError`), as
the counterexample shows. -/
theorem display_repo_defaults_for_absent_fields
    (langResp : String → ReqOutcome) (kvs : List (String × PyVal))
    (nv : PyVal) (langs : List String)
    (hname : kvs.lookup "name" = some nv)
    (hdesc : kvs.lookup "description" = Option.none)
    (hstars : kvs.lookup "stargazers_count" = Option.none)
    (hforks : kvs.lookup "forks_count" = Option.none)
    (hupd : kvs.lookup "updated_at" = Option.none)
    (hurl : kvs.lookup "html_url" = Option.none)
    (hlang0 : kvs.lookup "language" = Option.none)
    (hiss : kvs.lookup "has_issues" = some (.bool true))
    (hopen : kvs.lookup "open_issues_count" = Option.none)
    (hlic : kvs.lookup "license" = Option.none)
    (hl : get_repo_languages (langResp (pyStr nv)) = .ok langs) :
    display_repo langResp (.dict kvs) =
      .ok ⟨pyStr nv, "No description", "0", "0", "N/A", "N/A",
           (if langs.isEmpty then "Not available"
            else String.intercalate ", " langs),
           Option.none, some "0", Option.none⟩ := by
  unfold display_repo
  simp [pySubscript, pyGetD, hname, hdesc, hstars, hforks, hupd, hurl, hlang0,
    hiss, hopen, hlic, hl, pyTruthy, pySliceTen, take_na, bind, Except.bind,
    pyRepr_none, pyRepr_int, toString_zero, pyStr_str, pyStr_int]

/-- Witness for `display_repo_defaults_for_absent_fields`: a record with
only `name` and a truthy `has_issues`, with the language endpoint down. -/
theorem display_repo_defaults_for_absent_fields_witness :
    display_repo (fun _ => .error "down")
        (.dict [("name", .str "x"), ("has_issues", .bool true)]) =
      .ok ⟨"x", "No description", "0", "0", "N/A", "N/A", "Not available",
           Option.none, some "0", Option.none⟩ :=
  display_repo_defaults_for_absent_fields (fun _ => .error "down")
    [("name", .str "x"), ("has_issues", .bool true)] (.str "x") []
    rfl rfl rfl rfl rfl rfl rfl rfl rfl rfl rfl

/-- C4: `get_repo_languages` returns, on a 2xx/3xx object body, exactly the
keys of the JSON mapping with the byte-count values discarded, and on any
request failure (transport error or 4xx/5xx status) the empty list; and a
language endpoint answering `{"Go": 120, "Shell": 4}` makes `export_to_json`
emit `"languages": ["Go", "Shell"]` for that repository. -/
theorem get_repo_languages_keys_spec :
    (∀ st kvs nx, st < 400 →
        get_repo_languages (.ok ⟨st, .dict kvs, nx⟩) = .ok (kvs.map Prod.fst)) ∧
    (∀ e, get_repo_languages (.error e) = .ok []) ∧
    (∀ r, 400 ≤ r.status → get_repo_languages (.ok r) = .ok []) ∧
    (∀ now, ∃ doc,
        export_to_json
            (fun _ => .ok ⟨200, .dict [("Go", .int 120), ("Shell", .int 4)], false⟩)
            [.dict [("name", .str "r1")]] "u" Option.none now =
          .ok ("u_repositories.json", doc) ∧
        (snapshotRepos doc).map (fun e => pyField e "languages") =
          [.list [.str "Go", .str "Shell"]]) := by
  refine ⟨fun st kvs nx hst => ?_, fun e => rfl, fun r h => ?_,
    fun now => ⟨_, rfl, rfl⟩⟩
  · have hs : raisesForStatus ⟨st, .dict kvs, nx⟩ = false := by
      simp only [raisesForStatus, decide_eq_false_iff_not]; omega
    simp [get_repo_languages, hs]
  · have hs : raisesForStatus r = true := by
      simp only [raisesForStatus, decide_eq_true_eq]; omega
    simp [get_repo_languages, hs]

/-- Witness for `get_repo_languages_keys_spec` at concrete responses. -/
theorem get_repo_languages_keys_spec_witness :
    get_repo_languages (.ok ⟨200, .dict [("Go", .int 120), ("Shell", .int 4)], false⟩) =
      .ok ["Go", "Shell"] ∧
    get_repo_languages (.error "conn") = .ok [] ∧
    get_repo_languages (.ok ⟨403, .dict [("Go", .int 120)], false⟩) = .ok [] ∧
    ∃ doc,
      export_to_json
          (fun _ => .ok ⟨200, .dict [("Go", .int 120), ("Shell", .int 4)], false⟩)
          [.dict [("name", .str "r1")]] "u" Option.none "2026-01-01 00:00:00" =
        .ok ("u_repositories.json", doc) ∧
      (snapshotRepos doc).map (fun e => pyField e "languages") =
        [.list [.str "Go", .str "Shell"]] :=
  ⟨get_repo_languages_keys_spec.1 200 [("Go", .int 120), ("Shell", .int 4)]
      false (by decide),
   get_repo_languages_keys_spec.2.1 "conn",
   get_repo_languages_keys_spec.2.2.1 ⟨403, .dict [("Go", .int 120)], false⟩
      (by decide),
   get_repo_languages_keys_spec.2.2.2 "2026-01-01 00:00:00"⟩

/-- C6: with a non-empty, well-formed user list (each entry prints without
raising: it has a `login`, and any truthy `bio` it carries is sliceable),
the selection prompt (a) reprompts — consuming one input line and behaving
as if it had not been typed — on any stripped input that is not a quit
signal and either fails integer parsing (such as `""` or `"abc"`) or parses
out of range (such as `"0"` or a number above the list length), without
returning a selection and without raising; (b) returns no selection
immediately on `q` or `Q`; and (c) returns the login of the n-th user
(1-based) on a valid in-range number. -/
theorem display_user_selection_spec (users : List PyVal) (rest : List String)
    (hne : users ≠ []) (hwf : users.findSome? render_user_err = Option.none) :
    (∀ s, pyLower (pyStrip s) = "q" →
        display_user_selection users (s :: rest) = .ok Option.none) ∧
    (∀ s, selection_reprompt_input users s →
        display_user_selection users (s :: rest) =
          display_user_selection users rest) ∧
    (∀ s (n : Int), pyLower (pyStrip s) ≠ "q" → pyToInt? (pyStrip s) = some n →
        1 ≤ n → n ≤ (users.length : Int) →
        ∃ v, pySubscript (users.getD (n - 1).toNat .none) "login" = .ok v ∧
          display_user_selection users (s :: rest) = .ok (some v)) := by
  have hempty : users.isEmpty = false := by
    cases users with
    | nil => exact absurd rfl hne
    | cons a l => rfl
  have hdisp : ∀ ins, display_user_selection users ins = selection_loop users ins := by
    intro ins
    simp [display_user_selection, hempty, hwf]
  refine ⟨fun s hq => ?_, fun s hr => ?_, fun s n hq hparse h1 h2 => ?_⟩
  · rw [hdisp]
    simp [selection_loop, hq]
  · rw [hdisp, hdisp]
    rcases hr with ⟨hq, hparse⟩ | ⟨n, hq, hparse, hrange⟩
    · simp [selection_loop, hq, hparse]
    · have hcond : ¬(1 ≤ n ∧ n ≤ (users.length : Int)) := by omega
      simp [selection_loop, hq, hparse, hcond]
  · have hidx : (n - 1).toNat < users.length := by omega
    have hmem : users.getD (n - 1).toNat .none ∈ users := by
      rw [List.getD_eq_getElem?_getD, List.getElem?_eq_getElem hidx]
      exact List.getElem_mem hidx
    have hok := (List.findSome?_eq_none_iff.mp hwf) _ hmem
    obtain ⟨v, hv⟩ : ∃ v, pySubscript (users.getD (n - 1).toNat .none) "login" = .ok v := by
      unfold render_user_err at hok
      cases h : pySubscript (users.getD (n - 1).toNat .none) "login" with
      | ok v => exact ⟨v, rfl⟩
      | error e => rw [h] at hok; cases hok
    refine ⟨v, hv, ?_⟩
    rw [hdisp]
    simp only [selection_loop]
    rw [if_neg hq, hparse]
    dsimp only
    rw [if_pos ⟨h1, h2⟩, hv]

/-- Witness for `display_user_selection_spec`: one user `octocat`; the
inputs `"abc"` then `"0"` reprompt, then `"1"` selects the login. -/
theorem display_user_selection_spec_witness :
    display_user_selection [.dict [("login", .str "octocat")]] ["abc", "0", "1"] =
      .ok (some (.str "octocat")) ∧
    display_user_selection [.dict [("login", .str "octocat")]] ["q"] =
      .ok Option.none := by
  have h1 := display_user_selection_spec [.dict [("login", .str "octocat")]]
    ["0", "1"] (by simp) rfl
  have h2 := display_user_selection_spec [.dict [("login", .str "octocat")]]
    ["1"] (by simp) rfl
  have h3 := display_user_selection_spec [.dict [("login", .str "octocat")]]
    [] (by simp) rfl
  have ha := h1.2.1 "abc" (Or.inl ⟨by decide, by decide⟩)
  have hb := h2.2.1 "0" (Or.inr ⟨0, by decide, by decide, by omega⟩)
  obtain ⟨v, hv, hc⟩ := h3.2.2 "1" 1 (by decide) (by decide) (by omega) (by simp)
  have h0 : pySubscript ((([.dict [("login", .str "octocat")]] : List PyVal)).getD
      ((1 : Int) - 1).toNat .none) "login" = .ok (.str "octocat") := rfl
  have hveq : v = .str "octocat" := Except.ok.inj (hv.symm.trans h0)
  have hq := h3.1 "q" (by decide)
  refine ⟨?_, hq⟩
  rw [ha, hb, hc, hveq]

/-- One successful iteration of the pagination loop: a 200 page with a
non-empty list body and a `next` link appends the page and moves on. -/
lemma get_user_repos_loop_step (pages : Nat → ReqOutcome) (fuel k : Nat)
    (acc l : List PyVal) (hk : pages k = .ok ⟨200, .list l, true⟩)
    (hne : l ≠ []) :
    get_user_repos_loop pages (fuel + 1) k acc =
      get_user_repos_loop pages fuel (k + 1) (acc ++ l) := by
  have hs : raisesForStatus ⟨200, .list l, true⟩ = false := rfl
  have htr : pyTruthy (.list l) = true := by simp [pyTruthy, hne]
  simp [get_user_repos_loop, hk, hs, htr, pyExtend]

/-- Running the pagination loop across `d` consecutive good pages (200,
non-empty list body, `next` link present) appends those pages in order and
lands on page `k + d` with `d` units of fuel spent. -/
lemma get_user_repos_loop_run (pages : Nat → ReqOutcome) (P : Nat → List PyVal)
    (d : Nat) :
    ∀ (fuel k : Nat) (acc : List PyVal),
      (∀ i, k ≤ i → i < k + d → pages i = .ok ⟨200, .list (P i), true⟩ ∧ P i ≠ []) →
      d ≤ fuel →
      get_user_repos_loop pages fuel k acc =
        get_user_repos_loop pages (fuel - d) (k + d)
          (acc ++ ((List.range' k d).map P).flatten) := by
  induction d with
  | zero => intro fuel k acc _ _; simp
  | succ d ih =>
      intro fuel k acc h hf
      obtain ⟨fuel, rfl⟩ : ∃ f, fuel = f + 1 := ⟨fuel - 1, by omega⟩
      obtain ⟨hk, hkne⟩ := h k le_rfl (by omega)
      rw [get_user_repos_loop_step pages fuel k acc (P k) hk hkne]
      rw [ih fuel (k + 1) (acc ++ P k)
        (fun i h1 h2 => h i (by omega) (by omega)) (by omega)]
      have e1 : fuel - d = fuel + 1 - (d + 1) := by omega
      have e2 : k + 1 + d = k + (d + 1) := by omega
      have e3 : acc ++ P k ++ ((List.range' (k + 1) d).map P).flatten =
          acc ++ ((List.range' k (d + 1)).map P).flatten := by
        rw [List.range'_succ, List.map_cons, List.flatten_cons,
          List.append_assoc]
      rw [e1, e2, e3]

/-- C1: when pages `1..N-1` come back as 200 responses with non-empty list
bodies and `next` links and page `N` comes back 200, non-empty, with no
`next` link, `get_user_repos` returns exactly pages 1 through N concatenated
in the order the API returned them (given enough fuel to reach page N);
moreover — the empty-page check precedes the successor check — a page with
an empty list body stops the loop even when a `next` link is present. -/
theorem get_user_repos_collects_all_pages (pages : Nat → ReqOutcome)
    (P : Nat → List PyVal) (N fuel : Nat) (hN : 1 ≤ N)
    (hmid : ∀ i, 1 ≤ i → i < N → pages i = .ok ⟨200, .list (P i), true⟩ ∧ P i ≠ [])
    (hlast : pages N = .ok ⟨200, .list (P N), false⟩) (hlastne : P N ≠ [])
    (hfuel : N ≤ fuel) :
    get_user_repos pages fuel = .ok (((List.range' 1 N).map P).flatten) ∧
    (∀ (pages2 : Nat → ReqOutcome) (k fuel2 : Nat) (acc : List PyVal) (nx : Bool),
        pages2 k = .ok ⟨200, .list [], nx⟩ →
        get_user_repos_loop pages2 (fuel2 + 1) k acc = .ok acc) := by
  constructor
  · obtain ⟨M, rfl⟩ : ∃ M, N = M + 1 := ⟨N - 1, by omega⟩
    unfold get_user_repos
    rw [get_user_repos_loop_run pages P M fuel 1 []
      (fun i h1 h2 => hmid i h1 (by omega)) (by omega)]
    obtain ⟨f2, hf2⟩ : ∃ f2, fuel - M = f2 + 1 := ⟨fuel - M - 1, by omega⟩
    have hlast' : pages (1 + M) = .ok ⟨200, .list (P (1 + M)), false⟩ := by
      rw [Nat.add_comm 1 M]; exact hlast
    have hs : raisesForStatus ⟨200, .list (P (1 + M)), false⟩ = false := rfl
    have htr : pyTruthy (.list (P (1 + M))) = true := by
      have : P (1 + M) ≠ [] := by rw [Nat.add_comm 1 M]; exact hlastne
      simp [pyTruthy, this]
    rw [hf2]
    simp only [get_user_repos_loop, hlast', hs, htr, pyExtend]
    rw [List.range'_1_concat]
    simp [Nat.add_comm 1 M]
  · intro pages2 k fuel2 acc nx hk
    have htr : pyTruthy (.list ([] : List PyVal)) = false := rfl
    simp [get_user_repos_loop, hk, htr, raisesForStatus]

/-- Witness for `get_user_repos_collects_all_pages`: two pages, the second
with no `next` link; and an empty page 1 that carries a `next` link still
stops the loop. -/
theorem get_user_repos_collects_all_pages_witness :
    get_user_repos
        (fun p => if p = 1 then .ok ⟨200, .list [.str "a", .str "b"], true⟩
                  else .ok ⟨200, .list [.str "c"], false⟩) 2 =
      .ok [.str "a", .str "b", .str "c"] ∧
    get_user_repos_loop (fun _ => .ok ⟨200, .list [], true⟩) 5 1 [.str "z"] =
      .ok [.str "z"] := by
  have h := get_user_repos_collects_all_pages
    (fun p => if p = 1 then .ok ⟨200, .list [.str "a", .str "b"], true⟩
              else .ok ⟨200, .list [.str "c"], false⟩)
    (fun p => if p = 1 then [.str "a", .str "b"] else [.str "c"])
    2 2 (by omega)
    (by
      intro i h1 h2
      have : i = 1 := by omega
      subst this
      exact ⟨rfl, by simp⟩)
    rfl (by simp) (by omega)
  refine ⟨h.1.trans rfl, ?_⟩
  have h5 : (5 : Nat) = 4 + 1 := rfl
  rw [h5]
  exact h.2 (fun _ => .ok ⟨200, .list [], true⟩) 1 4 [.str "z"] true rfl

/-- C2: when pages `1..K-1` come back as 200 responses with non-empty list
bodies and `next` links and the request for page `K` fails with a transport
error or a 4xx/5xx status, `get_user_repos` catches the failure and returns
pages 1 through K-1 concatenated (the empty list when K = 1) instead of
propagating the error. -/
theorem get_user_repos_partial_on_error (pages : Nat → ReqOutcome)
    (P : Nat → List PyVal) (K fuel : Nat) (hK : 1 ≤ K)
    (hmid : ∀ i, 1 ≤ i → i < K → pages i = .ok ⟨200, .list (P i), true⟩ ∧ P i ≠ [])
    (hfail : (∃ e, pages K = .error e) ∨
      ∃ r, pages K = .ok r ∧ 400 ≤ r.status)
    (hfuel : K ≤ fuel) :
    get_user_repos pages fuel = .ok (((List.range' 1 (K - 1)).map P).flatten) := by
  obtain ⟨M, rfl⟩ : ∃ M, K = M + 1 := ⟨K - 1, by omega⟩
  unfold get_user_repos
  rw [get_user_repos_loop_run pages P M fuel 1 []
    (fun i h1 h2 => hmid i h1 (by omega)) (by omega)]
  obtain ⟨f2, hf2⟩ : ∃ f2, fuel - M = f2 + 1 := ⟨fuel - M - 1, by omega⟩
  rw [hf2]
  have hM : M + 1 - 1 = M := by omega
  rw [hM]
  rcases hfail with ⟨e, he⟩ | ⟨r, hr, hst⟩
  · have he' : pages (1 + M) = .error e := by rw [Nat.add_comm 1 M]; exact he
    simp [get_user_repos_loop, he']
  · have hr' : pages (1 + M) = .ok r := by rw [Nat.add_comm 1 M]; exact hr
    have hs : raisesForStatus r = true := by
      simp only [raisesForStatus, decide_eq_true_eq]; omega
    simp [get_user_repos_loop, hr', hs]

/-- Witness for `get_user_repos_partial_on_error`: one good page, then a
connection error on page 2 — and a connection error on page 1 itself, which
yields the empty list. -/
theorem get_user_repos_partial_on_error_witness :
    get_user_repos
        (fun p => if p = 1 then .ok ⟨200, .list [.str "a"], true⟩
                  else .error "conn") 9 =
      .ok [.str "a"] ∧
    get_user_repos (fun _ => .error "conn") 9 = .ok [] := by
  constructor
  · have h := get_user_repos_partial_on_error
      (fun p => if p = 1 then .ok ⟨200, .list [.str "a"], true⟩
                else .error "conn")
      (fun _ => [.str "a"]) 2 9 (by omega)
      (by
        intro i h1 h2
        have : i = 1 := by omega
        subst this
        exact ⟨rfl, by simp⟩)
      (Or.inl ⟨"conn", rfl⟩) (by omega)
    exact h.trans rfl
  · have h := get_user_repos_partial_on_error (fun _ => .error "conn")
      (fun _ => []) 1 9 (by omega)
      (by intro i h1 h2; omega)
      (Or.inl ⟨"conn", rfl⟩) (by omega)
    exact h.trans rfl

/-- Evaluating one export entry under the conditions of `exportReady`. -/
lemma export_repo_entry_eq (langResp : String → ReqOutcome)
    (kvs : List (String × PyVal)) (nv : PyVal) (langs : List String)
    (lic : PyVal) (hname : kvs.lookup "name" = some nv)
    (hlang : get_repo_languages (langResp (pyStr nv)) = .ok langs)
    (hlic : export_license_field kvs = .ok lic) :
    export_repo_entry langResp (.dict kvs) = .ok (mkExportEntry kvs langs lic) := by
  simp [export_repo_entry, pySubscript, hname, hlang, hlic, bind, Except.bind]

/-- The `license` value `export_to_json` writes is the license name string
of the in-memory record. -/
lemma memLicenseName_of_export (kvs : List (String × PyVal)) (lic : PyVal)
    (h : export_license_field kvs = .ok lic) :
    memLicenseName (.dict kvs) = lic := by
  unfold export_license_field at h
  simp only [memLicenseName]
  by_cases ht : pyTruthy (pyGetD kvs "license" .none) = true
  · rw [if_pos ht] at h ⊢
    cases hv : pyGetD kvs "license" .none with
    | dict lkvs => rw [hv] at h; exact Except.ok.inj h
    | none => rw [hv] at h; cases h
    | bool b => rw [hv] at h; cases h
    | int n => rw [hv] at h; cases h
    | str s => rw [hv] at h; cases h
    | list xs => rw [hv] at h; cases h
  · rw [if_neg ht] at h ⊢
    exact Except.ok.inj h

/-- Serializing a list of export-ready repository records: the entries map
the records one for one, each entry is an object with exactly the eleven
export fields, and the name, star, fork, open-issue and license values are
those of the corresponding in-memory records. -/
lemma export_entries_spec (langResp : String → ReqOutcome) :
    ∀ repos : List PyVal, (∀ repo ∈ repos, exportReady langResp repo) →
    ∃ entries : List PyVal,
      repos.mapM (export_repo_entry langResp) = .ok entries ∧
      entries.length = repos.length ∧
      (∀ e ∈ entries, ∃ ekvs, e = .dict ekvs ∧ ekvs.map Prod.fst = exportRepoKeys) ∧
      entries.map (fun e => pyField e "name") =
        repos.map (fun r => pyField r "name") ∧
      entries.map (fun e => pyField e "stars") =
        repos.map (fun r => pyField r "stargazers_count") ∧
      entries.map (fun e => pyField e "forks") =
        repos.map (fun r => pyField r "forks_count") ∧
      entries.map (fun e => pyField e "open_issues") =
        repos.map (fun r => pyField r "open_issues_count") ∧
      entries.map (fun e => pyField e "license") = repos.map memLicenseName := by
  intro repos
  induction repos with
  | nil => intro _; exact ⟨[], rfl, rfl, by simp, rfl, rfl, rfl, rfl, rfl⟩
  | cons r rs ih =>
      intro h
      obtain ⟨entries, hmapM, hlen, hkeys, hn, hs, hf, ho, hl⟩ :=
        ih (fun x hx => h x (List.mem_cons_of_mem r hx))
      obtain ⟨kvs, nv, langs, lic, rfl, hname, hlang, hlic⟩ :=
        h r (List.mem_cons_self r rs)
      refine ⟨mkExportEntry kvs langs lic :: entries, ?_, by simp [hlen], ?_,
        ?_, ?_, ?_, ?_, ?_⟩
      · rw [List.mapM_cons,
          export_repo_entry_eq langResp kvs nv langs lic hname hlang hlic,
          hmapM]
        rfl
      · intro e he
        rcases List.mem_cons.mp he with rfl | he2
        · exact ⟨_, rfl, rfl⟩
        · exact hkeys e he2
      · rw [List.map_cons, List.map_cons, hn]; rfl
      · rw [List.map_cons, List.map_cons, hs]; rfl
      · rw [List.map_cons, List.map_cons, hf]; rfl
      · rw [List.map_cons, List.map_cons, ho]; rfl
      · rw [List.map_cons, List.map_cons, hl,
          memLicenseName_of_export kvs lic hlic]
        rfl

/-- C3: with no filename supplied, `export_to_json` writes to
`<username>_repositories.json` a JSON document whose top level has exactly
the fields `username`, `fetched_at`, `total_repositories` and
`repositories`, where `total_repositories` is the length of the input list
and every repository object has exactly the eleven documented fields. -/
theorem export_to_json_schema (langResp : String → ReqOutcome)
    (repos : List PyVal) (username now : String)
    (hready : ∀ repo ∈ repos, exportReady langResp repo) :
    ∃ entries : List PyVal,
      export_to_json langResp repos username Option.none now =
        .ok (username ++ "_repositories.json", .dict
          [("username", .str username), ("fetched_at", .str now),
           ("total_repositories", .int (repos.length : Int)),
           ("repositories", .list entries)]) ∧
      entries.length = repos.length ∧
      ∀ e ∈ entries, ∃ ekvs, e = .dict ekvs ∧ ekvs.map Prod.fst = exportRepoKeys := by
  obtain ⟨entries, hmapM, hlen, hkeys, _⟩ := export_entries_spec langResp repos hready
  have hmapM2 : List.mapM.loop (export_repo_entry langResp) repos [] = .ok entries :=
    hmapM
  refine ⟨entries, ?_, hlen, hkeys⟩
  simp [export_to_json, export_default_filename, hmapM, hmapM2, bind, Except.bind]

/-- Witness for `export_to_json_schema`: one record, language endpoint
down. -/
theorem export_to_json_schema_witness :
    ∃ entries : List PyVal,
      export_to_json (fun _ => .error "down") [.dict [("name", .str "r1")]]
          "u" Option.none "t" =
        .ok ("u" ++ "_repositories.json", .dict
          [("username", .str "u"), ("fetched_at", .str "t"),
           ("total_repositories", .int (1 : Int)),
           ("repositories", .list entries)]) ∧
      entries.length = 1 ∧
      ∀ e ∈ entries, ∃ ekvs, e = .dict ekvs ∧ ekvs.map Prod.fst = exportRepoKeys :=
  export_to_json_schema (fun _ => .error "down") [.dict [("name", .str "r1")]]
    "u" "t"
    (by
      intro repo hm
      rw [List.mem_singleton.mp hm]
      exact ⟨[("name", .str "r1")], .str "r1", [], .none, rfl, rfl, rfl, rfl⟩)

/-- C5: re-parsing the JSON document `export_to_json` writes (`json.dump`
then `json.load` is the identity on JSON values) reconstructs, entry by
entry in order, the same repository names, star, fork and open-issue
counts, and license name strings as the in-memory repository records the
export was produced from. -/
theorem export_round_trip (langResp : String → ReqOutcome)
    (repos : List PyVal) (username : String) (filename : Option String)
    (now : String) (hready : ∀ repo ∈ repos, exportReady langResp repo) :
    ∃ fname doc,
      export_to_json langResp repos username filename now = .ok (fname, doc) ∧
      (snapshotRepos doc).map (fun e => pyField e "name") =
        repos.map (fun r => pyField r "name") ∧
      (snapshotRepos doc).map (fun e => pyField e "stars") =
        repos.map (fun r => pyField r "stargazers_count") ∧
      (snapshotRepos doc).map (fun e => pyField e "forks") =
        repos.map (fun r => pyField r "forks_count") ∧
      (snapshotRepos doc).map (fun e => pyField e "open_issues") =
        repos.map (fun r => pyField r "open_issues_count") ∧
      (snapshotRepos doc).map (fun e => pyField e "license") =
        repos.map memLicenseName := by
  obtain ⟨entries, hmapM, _, _, hn, hs, hf, ho, hl⟩ :=
    export_entries_spec langResp repos hready
  refine ⟨(match filename with
      | Option.none => export_default_filename username
      | some s => if s = "" then export_default_filename username else s),
    .dict [("username", .str username), ("fetched_at", .str now),
           ("total_repositories", .int (repos.length : Int)),
           ("repositories", .list entries)],
    ?_, hn, hs, hf, ho, hl⟩
  have hmapM2 : List.mapM.loop (export_repo_entry langResp) repos [] = .ok entries :=
    hmapM
  simp [export_to_json, hmapM, hmapM2, bind, Except.bind]

/-- Witness for `export_round_trip`: one record with counts and an MIT
license, exported with the language endpoint down. -/
theorem export_round_trip_witness :
    ∃ fname doc,
      export_to_json (fun _ => .error "down")
          [.dict [("name", .str "r1"), ("stargazers_count", .int 7),
                  ("forks_count", .int 2), ("open_issues_count", .int 3),
                  ("license", .dict [("name", .str "MIT")])]]
          "u" Option.none "t" = .ok (fname, doc) ∧
      (snapshotRepos doc).map (fun e => pyField e "name") = [.str "r1"] ∧
      (snapshotRepos doc).map (fun e => pyField e "stars") = [.int 7] ∧
      (snapshotRepos doc).map (fun e => pyField e "forks") = [.int 2] ∧
      (snapshotRepos doc).map (fun e => pyField e "open_issues") = [.int 3] ∧
      (snapshotRepos doc).map (fun e => pyField e "license") = [.str "MIT"] :=
  export_round_trip (fun _ => .error "down")
    [.dict [("name", .str "r1"), ("stargazers_count", .int 7),
            ("forks_count", .int 2), ("open_issues_count", .int 3),
            ("license", .dict [("name", .str "MIT")])]]
    "u" Option.none "t"
    (by
      intro repo hm
      rw [List.mem_singleton.mp hm]
      exact ⟨[("name", .str "r1"), ("stargazers_count", .int 7),
              ("forks_count", .int 2), ("open_issues_count", .int 3),
              ("license", .dict [("name", .str "MIT")])],
             .str "r1", [], .str "MIT", rfl, rfl, rfl, rfl⟩)

end GithubRepoFetcher
